import Mathlib

/-!
Shallow embedding of `src/demo.py`, a PSDK-to-MSDK data relay bridge.

The program receives payload items from a PSDK endpoint via a callback that
pushes them onto a global FIFO queue (`data_queue`), and a worker thread
(`DataBridge._bridge_worker`) pops items with a 1-second timeout and forwards
each through `MSDKTransmitter.send_signal`.  `DataBridge.start` / `stop`
orchestrate the lifecycle.  Payload items are opaque, so all definitions are
generic over the payload type `α`.  External SDK calls (client construction,
initialization, callback registration, receive-loop start, outbound send) are
opaque and may raise; their outcomes are modelled by explicit environment
records (`PSDKEnv`, `MSDKEnv`), and an outbound send is a function
`ProcessedData α → Except Unit Bool` (`Except.error` models a raised
exception).  Time is modelled as a natural number passed where the code calls
`time.time()`.
-/

variable {α : Type}

/-- Queue push: `data_queue.put(data)` appends at the tail of the FIFO queue
(demo.py line 54 via `queue.Queue`). -/
def queue_put (q : List α) (d : α) : List α := q ++ [d]

/-- Queue pop: `data_queue.get` removes and returns the front item; `none`
models `queue.Empty` being raised on timeout (demo.py line 184). -/
def queue_get : List α → Option (α × List α)
  | [] => none
  | d :: rest => some (d, rest)

/-- Pop timeout in time units: `data_queue.get(timeout=1.0)` (demo.py line 184). -/
def popTimeout : Nat := 1

/-- Worker join grace period: `self.bridge_thread.join(timeout=5.0)`
(demo.py line 228). -/
def joinGraceTimeout : Nat := 5

/-- State of a `PSDKReceiver` (demo.py lines 29-80).  `hasClient` models
`self.psdk_client is not None`; `receiving` models the endpoint client's
internal receive loop having been started by `start_receiving()`. -/
structure PSDKReceiver where
  device_path : String
  baud_rate : Nat
  hasClient : Bool
  running : Bool
  receiving : Bool
deriving DecidableEq

/-- Outcomes of the opaque PSDK client calls during this run: whether
`PSDKClient(...)` construction, `initialize()`, `register_data_callback(...)`
and `start_receiving()` each succeed or raise. -/
structure PSDKEnv where
  ctorOk : Bool
  initOk : Bool
  registerOk : Bool
  startRecvOk : Bool
deriving DecidableEq

/-- `PSDKReceiver.__init__` (demo.py lines 32-36). -/
def PSDKReceiver.init (device_path : String) (baud_rate : Nat) : PSDKReceiver :=
  { device_path := device_path, baud_rate := baud_rate,
    hasClient := false, running := false, receiving := false }

/-- `PSDKReceiver.connect` (demo.py lines 38-48): assigns `self.psdk_client`
from the constructor, then calls `initialize()`; any exception is caught and
yields `False`.  The client is assigned before `initialize()` runs, so a
failing `initialize()` still leaves a client set. -/
def PSDKReceiver.connect (env : PSDKEnv) (r : PSDKReceiver) : PSDKReceiver × Bool :=
  if env.ctorOk then
    let r1 := { r with hasClient := true }
    if env.initOk then (r1, true) else (r1, false)
  else (r, false)

/-- `PSDKReceiver.data_callback` (demo.py lines 50-54): puts the received item
on the global `data_queue`. -/
def PSDKReceiver.data_callback (q : List α) (d : α) : List α := queue_put q d

/-- Try block of `PSDKReceiver.start` (demo.py lines 62-72): register the data
callback, set `self.running = True`, call `start_receiving()`; an exception at
any of these points is caught and `start` returns `False`. -/
def PSDKReceiver.startTry (env : PSDKEnv) (r : PSDKReceiver) : PSDKReceiver × Bool :=
  if env.registerOk then
    let r2 := { r with running := true }
    if env.startRecvOk then ({ r2 with receiving := true }, true) else (r2, false)
  else (r, false)

/-- `PSDKReceiver.start` (demo.py lines 56-72): when `self.psdk_client` is
`None` it first calls `self.connect()` itself; if that connect fails it
returns `False`, otherwise it runs the try block. -/
def PSDKReceiver.start (env : PSDKEnv) (r : PSDKReceiver) : PSDKReceiver × Bool :=
  if r.hasClient then r.startTry env
  else
    let c := r.connect env
    if c.2 then c.1.startTry env else (c.1, false)

/-- `PSDKReceiver.stop` (demo.py lines 74-80): acts only when a client exists
and `self.running` is set; then it clears `running`, calls `stop_receiving()`
and `finalize()`.  Otherwise it is a no-op. -/
def PSDKReceiver.stop (r : PSDKReceiver) : PSDKReceiver :=
  if r.hasClient && r.running then
    { r with running := false, receiving := false }
  else r

/-- Envelope built by `MSDKTransmitter.process_data` (demo.py lines 120-129):
a dict with keys `timestamp`, `payload_data` and `type`. -/
structure ProcessedData (α : Type) where
  timestamp : Nat
  payload_data : α
  type : String
deriving DecidableEq

/-- Opaque MSDK client: `send_data` returns an acknowledgement `Bool` or
raises (`Except.error`). -/
structure MSDKClient (α : Type) where
  send_data : ProcessedData α → Except Unit Bool

/-- State of an `MSDKTransmitter` (demo.py lines 83-146). -/
structure MSDKTransmitter (α : Type) where
  app_id : String
  app_key : String
  msdk_client : Option (MSDKClient α)
  running : Bool

/-- Outcomes of the opaque MSDK client calls during this run: whether
`MSDKClient(...)` construction and `initialize()` succeed, and the behaviour
of the constructed client. -/
structure MSDKEnv (α : Type) where
  ctorOk : Bool
  initOk : Bool
  client : MSDKClient α

/-- `MSDKTransmitter.__init__` (demo.py lines 86-90). -/
def MSDKTransmitter.init (app_id app_key : String) : MSDKTransmitter α :=
  { app_id := app_id, app_key := app_key, msdk_client := none, running := false }

/-- `MSDKTransmitter.connect` (demo.py lines 92-102): assigns
`self.msdk_client` from the constructor, then calls `initialize()`; any
exception is caught and yields `False`. -/
def MSDKTransmitter.connect (env : MSDKEnv α) (t : MSDKTransmitter α) :
    MSDKTransmitter α × Bool :=
  if env.ctorOk then
    let t1 := { t with msdk_client := some env.client }
    if env.initOk then (t1, true) else (t1, false)
  else (t, false)

/-- `MSDKTransmitter.process_data` (demo.py lines 120-129): wraps the raw item
into the envelope `{"timestamp": time.time(), "payload_data": data,
"type": "sensor_data"}`.  `now` stands for the current `time.time()` value. -/
def MSDKTransmitter.process_data (now : Nat) (data : α) : ProcessedData α :=
  { timestamp := now, payload_data := data, type := "sensor_data" }

/-- `MSDKTransmitter.send_signal` (demo.py lines 104-118): returns `False`
when the client is not initialized; otherwise builds the envelope with
`process_data` and forwards it with `send_data`, returning the client's
acknowledgement; any exception is caught and yields `False`. -/
def MSDKTransmitter.send_signal (t : MSDKTransmitter α) (now : Nat) (data : α) : Bool :=
  match t.msdk_client with
  | none => false
  | some c =>
    match c.send_data (MSDKTransmitter.process_data now data) with
    | Except.ok result => result
    | Except.error _ => false

/-- `MSDKTransmitter.start` (demo.py lines 131-139): when the client is `None`
it first calls `self.connect()`; on connect failure it returns `False`,
otherwise it sets `self.running = True` and returns `True`. -/
def MSDKTransmitter.start (env : MSDKEnv α) (t : MSDKTransmitter α) :
    MSDKTransmitter α × Bool :=
  if t.msdk_client.isSome then ({ t with running := true }, true)
  else
    let c := t.connect env
    if c.2 then ({ c.1 with running := true }, true) else (c.1, false)

/-- `MSDKTransmitter.stop` (demo.py lines 141-146): acts only when a client
exists and `self.running` is set; then it clears `running` and calls
`finalize()`.  Otherwise it is a no-op. -/
def MSDKTransmitter.stop (t : MSDKTransmitter α) : MSDKTransmitter α :=
  if t.msdk_client.isSome && t.running then { t with running := false } else t

/-- PSDK configuration record (demo.py lines 154-157). -/
structure PSDKConfig where
  device_path : String
  baud_rate : Nat
deriving DecidableEq

/-- MSDK configuration record (demo.py lines 159-162). -/
structure MSDKConfig where
  app_id : String
  app_key : String
deriving DecidableEq

/-- Default PSDK configuration (demo.py lines 154-157). -/
def default_psdk_config : PSDKConfig :=
  { device_path := "/dev/ttyUSB0", baud_rate := 115200 }

/-- Default MSDK configuration (demo.py lines 159-162). -/
def default_msdk_config : MSDKConfig :=
  { app_id := "your_app_id", app_key := "your_app_key" }

/-- State of a `DataBridge` (demo.py lines 149-174).  `threadSpawned` models
`self.bridge_thread is not None` with the worker started. -/
structure DataBridge (α : Type) where
  psdk_receiver : PSDKReceiver
  msdk_transmitter : MSDKTransmitter α
  threadSpawned : Bool
  running : Bool

/-- `DataBridge.__init__` (demo.py lines 152-174): uses the provided configs
or the defaults, builds fresh receiver and transmitter instances, no thread,
not running.  Note: it creates no queue. -/
def DataBridge.init (psdk_config : Option PSDKConfig) (msdk_config : Option MSDKConfig) :
    DataBridge α :=
  let pc := psdk_config.getD default_psdk_config
  let mc := msdk_config.getD default_msdk_config
  { psdk_receiver := PSDKReceiver.init pc.device_path pc.baud_rate,
    msdk_transmitter := MSDKTransmitter.init mc.app_id mc.app_key,
    threadSpawned := false, running := false }

/-- Module-level state: the global `data_queue` (demo.py line 27), created
once at module import. -/
structure ProcessState (α : Type) where
  data_queue : List α
deriving DecidableEq

/-- Module import: `data_queue = queue.Queue()` — the queue is created empty,
once, at program start (demo.py line 27). -/
def moduleInit : ProcessState α := { data_queue := [] }

/-- Constructing a `DataBridge` inside a running process: `__init__` builds
the receiver and transmitter but touches no queue, so the global `data_queue`
is left exactly as it was. -/
def constructBridge (p : ProcessState α) (pc : Option PSDKConfig)
    (mc : Option MSDKConfig) : ProcessState α × DataBridge α :=
  (p, DataBridge.init pc mc)

/-- Per-iteration environment of the relay loop: `flag` is the value of
`self.running` read by the `while` test at the top of the iteration,
`arrivals` are the items pushed into the queue by the receiver callback during
this cycle, and `fault` says whether an exception is raised in the body of
this iteration after the send (e.g. from `task_done`); such an exception is
caught by the iteration's `except` clause. -/
structure IterEnv (α : Type) where
  flag : Bool
  arrivals : List α
  fault : Bool
deriving DecidableEq

/-- Observable trace of a `_bridge_worker` execution: the send attempts handed
to the transmitter in order (with each send's boolean result), the number of
exceptions caught and logged at iteration boundaries, and whether the loop
exited because it observed a cleared run flag (as opposed to the modelled
schedule running out while the loop is still live). -/
structure WorkerTrace (α : Type) where
  attempts : List (α × Bool)
  errorsLogged : Nat
  exitedViaStop : Bool
deriving DecidableEq

/-- `DataBridge._bridge_worker` (demo.py lines 176-197): `while self.running`,
pop from `data_queue` with a 1-unit timeout (`continue` on `queue.Empty`),
call `self.msdk_transmitter.send_signal(data)`, then `task_done`; any
exception raised in the body is caught, logged, and the loop continues.
The function returns the trace together with the final queue contents. -/
def bridge_worker (t : MSDKTransmitter α) (now : Nat) :
    List (IterEnv α) → List α → WorkerTrace α × List α
  | [], q => ({ attempts := [], errorsLogged := 0, exitedViaStop := false }, q)
  | e :: rest, q =>
    if e.flag then
      let q1 := e.arrivals.foldl PSDKReceiver.data_callback q
      match queue_get q1 with
      | none => bridge_worker t now rest q1
      | some (d, q2) =>
        let res := t.send_signal now d
        let cont := bridge_worker t now rest q2
        ({ attempts := (d, res) :: cont.1.attempts,
           errorsLogged := cont.1.errorsLogged + (if e.fault then 1 else 0),
           exitedViaStop := cont.1.exitedViaStop }, cont.2)
    else ({ attempts := [], errorsLogged := 0, exitedViaStop := true }, q)

/-- `DataBridge.start` (demo.py lines 199-219): start the receiver (on failure
return `False`); start the transmitter (on failure stop the already-started
receiver and return `False`); only then set `self.running = True`, spawn the
worker thread and return `True`. -/
def DataBridge.start (penv : PSDKEnv) (menv : MSDKEnv α) (b : DataBridge α) :
    DataBridge α × Bool :=
  let pr := b.psdk_receiver.start penv
  if pr.2 then
    let mt := b.msdk_transmitter.start menv
    if mt.2 then
      ({ b with psdk_receiver := pr.1, msdk_transmitter := mt.1,
                running := true, threadSpawned := true }, true)
    else
      ({ b with psdk_receiver := pr.1.stop, msdk_transmitter := mt.1 }, false)
  else
    ({ b with psdk_receiver := pr.1 }, false)

/-- Ordered actions performed by `DataBridge.stop`. -/
inductive StopAction where
  | clearFlag
  | joinWorker (timeout : Nat)
  | stopReceiver
  | stopTransmitter
deriving DecidableEq

/-- `DataBridge.stop` (demo.py lines 221-234): set `self.running = False`,
join the worker thread with the 5-unit grace timeout when one was spawned,
then stop the receiver and then the transmitter.  Returns the new state and
the ordered list of actions performed. -/
def DataBridge.stop (b : DataBridge α) : DataBridge α × List StopAction :=
  let b1 : DataBridge α := { b with running := false }
  let joinActs : List StopAction :=
    if b.threadSpawned then [StopAction.joinWorker joinGraceTimeout] else []
  ({ b1 with psdk_receiver := b1.psdk_receiver.stop,
             msdk_transmitter := b1.msdk_transmitter.stop },
   StopAction.clearFlag :: joinActs ++ [StopAction.stopReceiver, StopAction.stopTransmitter])

/-- All items pushed by the receiver callback over a schedule, in arrival
order. -/
def allArrivals : List (IterEnv α) → List α
  | [] => []
  | e :: rest => e.arrivals ++ allArrivals rest

/-- Schedule in which all pushed items arrive in the first cycle and the
worker then drains the queue: the run flag stays set and no iteration
faults. -/
def drainSched (items : List α) : List (IterEnv α) :=
  { flag := true, arrivals := items, fault := false } ::
    List.replicate items.length { flag := true, arrivals := [], fault := false }

/-- Sample MSDK client whose sends always acknowledge. -/
def sampleClient : MSDKClient Nat := { send_data := fun _ => Except.ok true }

/-- Sample MSDK client whose sends always raise. -/
def sampleRaisingClient : MSDKClient Nat := { send_data := fun _ => Except.error () }

/-- Sample connected, running transmitter. -/
def sampleTransmitter : MSDKTransmitter Nat :=
  { app_id := "your_app_id", app_key := "your_app_key",
    msdk_client := some sampleClient, running := true }

/-- Sample transmitter whose client is not initialized. -/
def sampleNoClientTransmitter : MSDKTransmitter Nat :=
  { app_id := "your_app_id", app_key := "your_app_key",
    msdk_client := none, running := false }

/-- Sample transmitter whose client raises on every send. -/
def sampleRaisingTransmitter : MSDKTransmitter Nat :=
  { app_id := "your_app_id", app_key := "your_app_key",
    msdk_client := some sampleRaisingClient, running := true }

/-- Sample freshly constructed receiver (not connected, not started). -/
def sampleIdleReceiver : PSDKReceiver := PSDKReceiver.init "/dev/ttyUSB0" 115200

/-- Sample connected, started receiver. -/
def sampleStartedReceiver : PSDKReceiver :=
  { device_path := "/dev/ttyUSB0", baud_rate := 115200,
    hasClient := true, running := true, receiving := true }

/-- Sample bridge in the Running state. -/
def sampleBridgeRunning : DataBridge Nat :=
  { psdk_receiver := sampleStartedReceiver, msdk_transmitter := sampleTransmitter,
    threadSpawned := true, running := true }

/-- Sample freshly constructed bridge. -/
def sampleIdleBridge : DataBridge Nat := DataBridge.init none none

/-- Sample PSDK environment in which every SDK call succeeds. -/
def envAllOk : PSDKEnv :=
  { ctorOk := true, initOk := true, registerOk := true, startRecvOk := true }

/-- Sample PSDK environment in which client construction raises. -/
def envCtorFail : PSDKEnv :=
  { ctorOk := false, initOk := true, registerOk := true, startRecvOk := true }

/-- Sample MSDK environment in which client construction raises. -/
def menvCtorFail : MSDKEnv Nat :=
  { ctorOk := false, initOk := true, client := sampleClient }

theorem foldl_data_callback (items q : List α) :
    items.foldl PSDKReceiver.data_callback q = q ++ items := by
  induction items generalizing q with
  | nil => simp
  | cons d rest ih =>
    simp [List.foldl, PSDKReceiver.data_callback, queue_put, ih]

theorem bridge_worker_empty_drain (t : MSDKTransmitter α) (now n : Nat) :
    bridge_worker t now
        (List.replicate n { flag := true, arrivals := [], fault := false }) ([] : List α) =
      ({ attempts := [], errorsLogged := 0, exitedViaStop := false }, []) := by
  induction n with
  | zero => rfl
  | succ m ih => simpa [List.replicate_succ, bridge_worker, queue_get] using ih

theorem bridge_worker_drain (t : MSDKTransmitter α) (now : Nat) (q : List α) :
    ∀ n, q.length ≤ n →
    bridge_worker t now
        (List.replicate n { flag := true, arrivals := [], fault := false }) q =
      ({ attempts := q.map (fun d => (d, t.send_signal now d)),
         errorsLogged := 0, exitedViaStop := false }, []) := by
  induction q with
  | nil => intro n _; simpa using bridge_worker_empty_drain t now n
  | cons d qs ih =>
    intro n hn
    cases n with
    | zero => simp at hn
    | succ m =>
      have hm : qs.length ≤ m := by simpa using hn
      simp [List.replicate_succ, bridge_worker, queue_get, ih m hm]

theorem bridge_worker_step_flagFalse (t : MSDKTransmitter α) (now : Nat) (e : IterEnv α)
    (rest : List (IterEnv α)) (q : List α) (he : e.flag = false) :
    bridge_worker t now (e :: rest) q =
      ({ attempts := [], errorsLogged := 0, exitedViaStop := true }, q) := by
  simp [bridge_worker, he]

theorem bridge_worker_step_empty (t : MSDKTransmitter α) (now : Nat) (e : IterEnv α)
    (rest : List (IterEnv α)) (q : List α) (he : e.flag = true)
    (hq : e.arrivals.foldl PSDKReceiver.data_callback q = []) :
    bridge_worker t now (e :: rest) q = bridge_worker t now rest [] := by
  simp [bridge_worker, he, hq, queue_get]

theorem bridge_worker_step_pop (t : MSDKTransmitter α) (now : Nat) (e : IterEnv α)
    (rest : List (IterEnv α)) (q : List α) (d : α) (q2 : List α) (he : e.flag = true)
    (hq : e.arrivals.foldl PSDKReceiver.data_callback q = d :: q2) :
    bridge_worker t now (e :: rest) q =
      ({ attempts := (d, t.send_signal now d) :: (bridge_worker t now rest q2).1.attempts,
         errorsLogged := (bridge_worker t now rest q2).1.errorsLogged +
           (if e.fault then 1 else 0),
         exitedViaStop := (bridge_worker t now rest q2).1.exitedViaStop },
       (bridge_worker t now rest q2).2) := by
  simp [bridge_worker, he, hq, queue_get]

theorem bridge_worker_drainSched (t : MSDKTransmitter α) (now : Nat) (items : List α) :
    bridge_worker t now (drainSched items) [] =
      ({ attempts := items.map (fun d => (d, t.send_signal now d)),
         errorsLogged := 0, exitedViaStop := false }, []) := by
  cases items with
  | nil => rfl
  | cons d rest =>
    have hlen : drainSched (d :: rest) =
        ({ flag := true, arrivals := d :: rest, fault := false } : IterEnv α) ::
          List.replicate (rest.length + 1) { flag := true, arrivals := [], fault := false } := by
      simp [drainSched]
    have hq : ({ flag := true, arrivals := d :: rest, fault := false } :
        IterEnv α).arrivals.foldl PSDKReceiver.data_callback [] = d :: rest := by
      simpa using foldl_data_callback (d :: rest) []
    have h := bridge_worker_drain t now rest (rest.length + 1) (Nat.le_succ _)
    rw [hlen, bridge_worker_step_pop t now _ _ _ d rest rfl hq, h]
    simp

theorem bridge_worker_conservation (t : MSDKTransmitter α) (now : Nat) :
    ∀ (envs : List (IterEnv α)) (q : List α), (∀ e ∈ envs, e.flag = true) →
    (bridge_worker t now envs q).1.attempts.map Prod.fst ++ (bridge_worker t now envs q).2 =
      q ++ allArrivals envs := by
  intro envs
  induction envs with
  | nil => intro q _; simp [bridge_worker, allArrivals]
  | cons e rest ih =>
    intro q hflag
    have he : e.flag = true := hflag e (List.mem_cons_self e rest)
    have hrest : ∀ x ∈ rest, x.flag = true := fun x hx => hflag x (List.mem_cons_of_mem e hx)
    have hq1 : e.arrivals.foldl PSDKReceiver.data_callback q = q ++ e.arrivals :=
      foldl_data_callback e.arrivals q
    rcases hsplit : q ++ e.arrivals with _ | ⟨d, q2⟩
    · have hstep : bridge_worker t now (e :: rest) q = bridge_worker t now rest [] := by
        simp [bridge_worker, he, hq1, hsplit, queue_get]
      rw [hstep, allArrivals, ← List.append_assoc, hsplit]
      simpa using ih [] hrest
    · have hstep : bridge_worker t now (e :: rest) q =
          ({ attempts := (d, t.send_signal now d) :: (bridge_worker t now rest q2).1.attempts,
             errorsLogged := (bridge_worker t now rest q2).1.errorsLogged +
               (if e.fault then 1 else 0),
             exitedViaStop := (bridge_worker t now rest q2).1.exitedViaStop },
           (bridge_worker t now rest q2).2) := by
        simp [bridge_worker, he, hq1, hsplit, queue_get]
      rw [hstep, allArrivals, ← List.append_assoc, hsplit]
      simpa using ih q2 hrest

theorem psdk_start_success_state (env : PSDKEnv) (r : PSDKReceiver)
    (h : (PSDKReceiver.start env r).2 = true) :
    (PSDKReceiver.start env r).1.hasClient = true ∧
    (PSDKReceiver.start env r).1.running = true := by
  unfold PSDKReceiver.start PSDKReceiver.startTry PSDKReceiver.connect at *
  split_ifs at * <;> simp_all

/-- Claim C3: for every raw item d, the transmitter's send operation wraps d
into an envelope whose timestamp is the current instant, whose payload field
holds d unchanged and whose kind tag is the string "sensor_data", and returns
the endpoint client's acknowledgement status for that envelope. -/
theorem send_signal_envelope_construction (t : MSDKTransmitter α) (c : MSDKClient α)
    (now : Nat) (d : α) (b : Bool) (hc : t.msdk_client = some c)
    (hs : c.send_data (MSDKTransmitter.process_data now d) = Except.ok b) :
    t.send_signal now d = b ∧
    (MSDKTransmitter.process_data now d).timestamp = now ∧
    (MSDKTransmitter.process_data now d).payload_data = d ∧
    (MSDKTransmitter.process_data now d).type = "sensor_data" := by
  refine ⟨?_, rfl, rfl, rfl⟩
  simp [MSDKTransmitter.send_signal, hc, hs]

/-- Witness for the envelope-construction theorem at a concrete transmitter,
instant and item. -/
theorem send_signal_envelope_construction_witness :
    MSDKTransmitter.send_signal sampleTransmitter 7 42 = true ∧
    (MSDKTransmitter.process_data 7 (42 : Nat)).timestamp = 7 ∧
    (MSDKTransmitter.process_data 7 (42 : Nat)).payload_data = 42 ∧
    (MSDKTransmitter.process_data 7 (42 : Nat)).type = "sensor_data" :=
  send_signal_envelope_construction sampleTransmitter sampleClient 7 42 true rfl rfl

/-- Claim C10: send_signal is total and never raises — it returns False when
the client is not initialized, returns False when the underlying client send
raises, and in every case returns a boolean. -/
theorem send_signal_total_never_raises (t : MSDKTransmitter α) (now : Nat) (d : α) :
    (t.msdk_client = none → t.send_signal now d = false) ∧
    (∀ (c : MSDKClient α) (e : Unit), t.msdk_client = some c →
      c.send_data (MSDKTransmitter.process_data now d) = Except.error e →
      t.send_signal now d = false) ∧
    (t.send_signal now d = true ∨ t.send_signal now d = false) := by
  refine ⟨?_, ?_, Bool.eq_false_or_eq_true _⟩
  · intro h; simp [MSDKTransmitter.send_signal, h]
  · intro c e hc hs; simp [MSDKTransmitter.send_signal, hc, hs]

/-- Witness for the send_signal totality theorem: a transmitter without a
client and a transmitter whose client raises both yield False. -/
theorem send_signal_total_never_raises_witness :
    MSDKTransmitter.send_signal sampleNoClientTransmitter 0 5 = false ∧
    MSDKTransmitter.send_signal sampleRaisingTransmitter 0 5 = false :=
  ⟨(send_signal_total_never_raises sampleNoClientTransmitter 0 5).1 rfl,
   (send_signal_total_never_raises sampleRaisingTransmitter 0 5).2.1
     sampleRaisingClient () rfl rfl⟩

/-- Claim C8: endpoint stop safety — stopping a not-started receiver or
transmitter is a no-op leaving the state unchanged, and a second stop in a row
is also a no-op (stop never raises: it is a total function). -/
theorem endpoint_stop_safety (r : PSDKReceiver) (t : MSDKTransmitter α) :
    (r.running = false → r.stop = r) ∧
    (r.hasClient = false → r.stop = r) ∧
    (t.running = false → t.stop = t) ∧
    (t.msdk_client = none → t.stop = t) ∧
    r.stop.stop = r.stop ∧
    t.stop.stop = t.stop := by
  refine ⟨?_, ?_, ?_, ?_, ?_, ?_⟩
  · intro h; simp [PSDKReceiver.stop, h]
  · intro h; simp [PSDKReceiver.stop, h]
  · intro h; simp [MSDKTransmitter.stop, h]
  · intro h; simp [MSDKTransmitter.stop, h]
  · by_cases h : (r.hasClient && r.running) = true <;> simp [PSDKReceiver.stop, h]
  · by_cases h : (t.msdk_client.isSome && t.running) = true <;> simp [MSDKTransmitter.stop, h]

/-- Witness for the endpoint stop-safety theorem at concrete endpoints. -/
theorem endpoint_stop_safety_witness :
    PSDKReceiver.stop sampleIdleReceiver = sampleIdleReceiver ∧
    MSDKTransmitter.stop sampleNoClientTransmitter = sampleNoClientTransmitter ∧
    PSDKReceiver.stop (PSDKReceiver.stop sampleStartedReceiver) =
      PSDKReceiver.stop sampleStartedReceiver ∧
    MSDKTransmitter.stop (MSDKTransmitter.stop sampleTransmitter) =
      MSDKTransmitter.stop sampleTransmitter :=
  ⟨(endpoint_stop_safety sampleIdleReceiver sampleNoClientTransmitter).1 rfl,
   (endpoint_stop_safety sampleIdleReceiver sampleNoClientTransmitter).2.2.1 rfl,
   (endpoint_stop_safety sampleStartedReceiver sampleTransmitter).2.2.2.2.1,
   (endpoint_stop_safety sampleStartedReceiver sampleTransmitter).2.2.2.2.2⟩

/-- Claim C6 as stated is false on the code: PSDKReceiver.start on a
not-connected receiver does not fail — it calls connect itself (demo.py lines
58-60).  Concretely, on the freshly constructed (not-connected) receiver with
every SDK call succeeding, start returns success. -/
theorem start_without_connect_succeeds_cex :
    sampleIdleReceiver.hasClient = false ∧
    (PSDKReceiver.start envAllOk sampleIdleReceiver).2 = true :=
  ⟨rfl, rfl⟩

/-- Claim C6 amended: start on a not-connected receiver first attempts connect
itself; when that connect fails, start returns failure without beginning
reception (running and receiving are left unchanged). -/
theorem start_unconnected_connect_failure (r : PSDKReceiver) (env : PSDKEnv)
    (hnc : r.hasClient = false) (hcf : env.ctorOk = false ∨ env.initOk = false) :
    (PSDKReceiver.start env r).2 = false ∧
    (PSDKReceiver.start env r).1.running = r.running ∧
    (PSDKReceiver.start env r).1.receiving = r.receiving := by
  rcases hcf with h | h
  · simp [PSDKReceiver.start, PSDKReceiver.connect, hnc, h]
  · by_cases h2 : env.ctorOk = true <;>
      simp [PSDKReceiver.start, PSDKReceiver.connect, hnc, h, h2]

/-- Witness for the amended C6 theorem: the fresh receiver with a failing
client constructor. -/
theorem start_unconnected_connect_failure_witness :
    (PSDKReceiver.start envCtorFail sampleIdleReceiver).2 = false ∧
    (PSDKReceiver.start envCtorFail sampleIdleReceiver).1.running =
      sampleIdleReceiver.running ∧
    (PSDKReceiver.start envCtorFail sampleIdleReceiver).1.receiving =
      sampleIdleReceiver.receiving :=
  start_unconnected_connect_failure sampleIdleReceiver envCtorFail rfl (Or.inl rfl)

/-- Claim C2: startup rollback — when the receiver starts successfully and the
transmitter start then fails, DataBridge.start stops the already-started
receiver, returns failure, never spawns the relay worker and leaves the run
flag false. -/
theorem start_rollback_on_transmitter_failure (b : DataBridge α) (penv : PSDKEnv)
    (menv : MSDKEnv α)
    (hrecv : (PSDKReceiver.start penv b.psdk_receiver).2 = true)
    (htx : (MSDKTransmitter.start menv b.msdk_transmitter).2 = false)
    (hrun : b.running = false) (hth : b.threadSpawned = false) :
    (DataBridge.start penv menv b).2 = false ∧
    (DataBridge.start penv menv b).1.psdk_receiver =
      ((PSDKReceiver.start penv b.psdk_receiver).1).stop ∧
    (DataBridge.start penv menv b).1.psdk_receiver.running = false ∧
    (DataBridge.start penv menv b).1.running = false ∧
    (DataBridge.start penv menv b).1.threadSpawned = false := by
  have hs := psdk_start_success_state penv b.psdk_receiver hrecv
  have hb : DataBridge.start penv menv b =
      ({ b with psdk_receiver := ((PSDKReceiver.start penv b.psdk_receiver).1).stop,
                msdk_transmitter := (MSDKTransmitter.start menv b.msdk_transmitter).1 },
        false) := by
    simp [DataBridge.start, hrecv, htx]
  rw [hb]
  refine ⟨rfl, rfl, ?_, hrun, hth⟩
  simp [PSDKReceiver.stop, hs.1, hs.2]

/-- Witness for the startup-rollback theorem: a fresh bridge, all PSDK calls
succeeding, MSDK client construction failing. -/
theorem start_rollback_on_transmitter_failure_witness :
    (DataBridge.start envAllOk menvCtorFail sampleIdleBridge).2 = false ∧
    (DataBridge.start envAllOk menvCtorFail sampleIdleBridge).1.psdk_receiver.running
      = false ∧
    (DataBridge.start envAllOk menvCtorFail sampleIdleBridge).1.running = false ∧
    (DataBridge.start envAllOk menvCtorFail sampleIdleBridge).1.threadSpawned = false := by
  have h := start_rollback_on_transmitter_failure sampleIdleBridge envAllOk menvCtorFail
    rfl rfl rfl rfl
  exact ⟨h.1, h.2.2.1, h.2.2.2.1, h.2.2.2.2⟩

/-- Claim C7: shutdown sequence — from the Running state, DataBridge.stop
first clears the run flag, then joins the worker with the 5-unit grace
timeout, then stops the receiver and the transmitter, leaving the bridge, the
receiver and the transmitter stopped; the relay loop blocks at most the 1-unit
pop timeout per cycle and exits as soon as an iteration observes the cleared
flag. -/
theorem stop_shutdown_sequence (b : DataBridge α) (t : MSDKTransmitter α) (now : Nat)
    (h1 : b.threadSpawned = true)
    (h2 : b.psdk_receiver.hasClient = true) (h3 : b.psdk_receiver.running = true)
    (h4 : b.msdk_transmitter.msdk_client.isSome = true)
    (h5 : b.msdk_transmitter.running = true) :
    (DataBridge.stop b).2 =
      [StopAction.clearFlag, StopAction.joinWorker joinGraceTimeout,
       StopAction.stopReceiver, StopAction.stopTransmitter] ∧
    joinGraceTimeout = 5 ∧ popTimeout = 1 ∧
    (DataBridge.stop b).1.running = false ∧
    (DataBridge.stop b).1.psdk_receiver.running = false ∧
    (DataBridge.stop b).1.msdk_transmitter.running = false ∧
    (∀ (envs : List (IterEnv α)) (q : List α) (e : IterEnv α), e.flag = false →
      bridge_worker t now (e :: envs) q =
        ({ attempts := [], errorsLogged := 0, exitedViaStop := true }, q)) := by
  refine ⟨?_, rfl, rfl, ?_, ?_, ?_, ?_⟩
  · simp [DataBridge.stop, h1]
  · simp [DataBridge.stop]
  · simp [DataBridge.stop, PSDKReceiver.stop, h2, h3]
  · simp [DataBridge.stop, MSDKTransmitter.stop, h4, h5]
  · intro envs q e he
    exact bridge_worker_step_flagFalse t now e envs q he

/-- Witness for the shutdown-sequence theorem at a concrete running bridge. -/
theorem stop_shutdown_sequence_witness :
    (DataBridge.stop sampleBridgeRunning).2 =
      [StopAction.clearFlag, StopAction.joinWorker joinGraceTimeout,
       StopAction.stopReceiver, StopAction.stopTransmitter] ∧
    (DataBridge.stop sampleBridgeRunning).1.running = false ∧
    bridge_worker sampleTransmitter 0
        [{ flag := false, arrivals := [], fault := false }] [3] =
      ({ attempts := [], errorsLogged := 0, exitedViaStop := true }, [3]) := by
  have h := stop_shutdown_sequence sampleBridgeRunning sampleTransmitter 0
    rfl rfl rfl rfl rfl
  exact ⟨h.1, h.2.2.2.1,
    h.2.2.2.2.2.2 [] [3] { flag := false, arrivals := [], fault := false } rfl⟩

/-- Claim C9 as stated is false on the code: the hand-off queue is the
module-level data_queue created at import (demo.py line 27), not created at
Bridge construction.  Concretely, constructing a fresh DataBridge in a process
whose global queue already holds the item 42 (pushed via the receiver
callback of an earlier session) leaves that queue unchanged and non-empty, and
the fresh bridge's relay worker then delivers the stale item 42 — items cross
between Bridge instances. -/
theorem queue_created_at_construction_cex :
    (constructBridge ({ data_queue := PSDKReceiver.data_callback [] 42 } :
        ProcessState Nat) none none).1.data_queue = [42] ∧
    (constructBridge ({ data_queue := PSDKReceiver.data_callback [] 42 } :
        ProcessState Nat) none none).1.data_queue ≠ [] ∧
    ((bridge_worker sampleTransmitter 0
        [{ flag := true, arrivals := [], fault := false }]
        (constructBridge ({ data_queue := PSDKReceiver.data_callback [] 42 } :
          ProcessState Nat) none none).1.data_queue).1.attempts.map Prod.fst = [42]) :=
  ⟨rfl, by decide, rfl⟩

/-- Claim C9 amended: the hand-off queue is a module-level singleton created
once, empty, at module import; DataBridge construction never creates or resets
it, so the queue (with any items it still holds) is shared across all Bridge
instances in the process. -/
theorem queue_module_singleton (p : ProcessState α) (pc : Option PSDKConfig)
    (mc : Option MSDKConfig) :
    (constructBridge p pc mc).1 = p ∧ (moduleInit : ProcessState α).data_queue = [] :=
  ⟨rfl, rfl⟩

/-- Claim C1: the hand-off queue is strict FIFO with no duplication and no
loss: (i) for every sequence of items pushed via the receiver callback, the
relay worker pops and delivers exactly those items to the transmitter, in push
order, each exactly once, leaving the queue empty; (ii) for any interleaving
of callback pushes with worker iterations while the run flag stays set, the
items delivered so far followed by the items still queued are exactly the
initial queue followed by the pushed items in arrival order. -/
theorem handoff_queue_fifo_no_dup_no_loss (t : MSDKTransmitter α) (now : Nat)
    (items : List α) :
    ((bridge_worker t now (drainSched items) []).1.attempts.map Prod.fst = items) ∧
    ((bridge_worker t now (drainSched items) []).2 = []) ∧
    (∀ (envs : List (IterEnv α)) (q : List α), (∀ e ∈ envs, e.flag = true) →
      (bridge_worker t now envs q).1.attempts.map Prod.fst ++
          (bridge_worker t now envs q).2 =
        q ++ allArrivals envs) := by
  refine ⟨?_, ?_, bridge_worker_conservation t now⟩
  · rw [bridge_worker_drainSched]
    show List.map Prod.fst (items.map fun d => (d, t.send_signal now d)) = items
    have hcomp : (Prod.fst ∘ fun d : α => (d, t.send_signal now d)) = id := rfl
    rw [List.map_map, hcomp, List.map_id]
  · rw [bridge_worker_drainSched]

/-- Witness for the FIFO theorem: three pushed items are delivered in order,
and the conservation property holds on a concrete one-iteration schedule with
two pushes. -/
theorem handoff_queue_fifo_no_dup_no_loss_witness :
    ((bridge_worker sampleTransmitter 0 (drainSched [1, 2, 3]) []).1.attempts.map
        Prod.fst = [1, 2, 3]) ∧
    ((bridge_worker sampleTransmitter 0
          [{ flag := true, arrivals := [4, 5], fault := false }] []).1.attempts.map
        Prod.fst ++
      (bridge_worker sampleTransmitter 0
          [{ flag := true, arrivals := [4, 5], fault := false }] []).2 =
      [] ++ allArrivals [{ flag := true, arrivals := [4, 5], fault := false }]) := by
  have h := handoff_queue_fifo_no_dup_no_loss sampleTransmitter 0 [1, 2, 3]
  refine ⟨h.1, h.2.2 [{ flag := true, arrivals := [4, 5], fault := false }] [] ?_⟩
  intro e he
  rw [List.mem_singleton] at he
  subst he
  rfl

/-- Claim C5: soft-failure containment — for every queued sequence of items
the relay loop attempts exactly one send per popped item, in order, with each
send's boolean result taken from the transmitter regardless of earlier
results (a false result means the item is dropped: it is neither retried nor
requeued), the queue ends empty and the loop is still alive afterwards. -/
theorem soft_failure_containment (t : MSDKTransmitter α) (now : Nat) (items : List α) :
    (bridge_worker t now (drainSched items) []).1.attempts =
      items.map (fun d => (d, t.send_signal now d)) ∧
    (bridge_worker t now (drainSched items) []).2 = [] ∧
    (bridge_worker t now (drainSched items) []).1.exitedViaStop = false := by
  rw [bridge_worker_drainSched]
  exact ⟨rfl, rfl, rfl⟩

/-- Claim C4: relay loop self-healing — an exception raised inside an
iteration is caught and logged at the iteration boundary and the loop proceeds
with the remaining schedule unchanged apart from the error log; and the loop
terminates by exiting the while loop exactly when some iteration observes a
cleared run flag. -/
theorem bridge_worker_self_healing (t : MSDKTransmitter α) (now : Nat) :
    (∀ (d : α) (q2 : List α) (rest : List (IterEnv α)),
      bridge_worker t now ({ flag := true, arrivals := [], fault := true } :: rest)
          (d :: q2) =
        ({ attempts := (d, t.send_signal now d) ::
             (bridge_worker t now rest q2).1.attempts,
           errorsLogged := (bridge_worker t now rest q2).1.errorsLogged + 1,
           exitedViaStop := (bridge_worker t now rest q2).1.exitedViaStop },
         (bridge_worker t now rest q2).2)) ∧
    (∀ (envs : List (IterEnv α)) (q : List α),
      (bridge_worker t now envs q).1.exitedViaStop = true ↔
        ∃ e ∈ envs, e.flag = false) := by
  constructor
  · intro d q2 rest
    have h := bridge_worker_step_pop t now
      { flag := true, arrivals := [], fault := true } rest (d :: q2) d q2 rfl (by simp)
    simpa using h
  · intro envs
    induction envs with
    | nil => intro q; simp [bridge_worker]
    | cons e rest ih =>
      intro q
      by_cases he : e.flag = true
      · rcases hsplit : e.arrivals.foldl PSDKReceiver.data_callback q with _ | ⟨d, q2⟩
        · rw [bridge_worker_step_empty t now e rest q he hsplit]
          simp [ih, he]
        · rw [bridge_worker_step_pop t now e rest q d q2 he hsplit]
          simp [ih, he]
      · have he2 : e.flag = false := by simpa using he
        rw [bridge_worker_step_flagFalse t now e rest q he2]
        exact ⟨fun _ => ⟨e, List.mem_cons_self e rest, he2⟩, fun _ => rfl⟩

/-- Witness for the self-healing theorem: a faulting iteration still records
its send attempt and one logged error, and the loop does not exit. -/
theorem bridge_worker_self_healing_witness :
    bridge_worker sampleTransmitter 0
        [{ flag := true, arrivals := [], fault := true }] [7] =
      ({ attempts := [(7, true)], errorsLogged := 1, exitedViaStop := false }, []) := by
  have h := (bridge_worker_self_healing sampleTransmitter 0).1 7 [] []
  rw [h]
  rfl
